import Mathlib

/-!
Shallow embedding of the core of the `beam-processing` repository
(`src/input.py`, `src/outputDataFrame.py`, `src/transformations.py`):
the lazily evaluated, disk-cached derived-table machinery and the
aggregation `load` methods that the specification describes.

DataFrames are modeled abstractly (a type parameter) where only the caching
protocol matters, and as lists of row structures where the contents matter.
Python dicts are modeled as insertion-ordered association lists, with
`dictInsert` mirroring `d[k] = v` (update in place if the key is present,
append otherwise).  Disk writes are modeled as succeeding.
-/

/-- Python `d[k] = v` on an insertion-ordered dict modeled as an
association list: replace the value at the first occurrence of `k`,
or append `(k, v)` when `k` is absent. -/
def dictInsert {κ β : Type} [BEq κ] : List (κ × β) → κ → β → List (κ × β)
  | [], k, v => [(k, v)]
  | (k0, v0) :: rest, k, v =>
    if k0 == k then (k0, v) :: rest else (k0, v0) :: dictInsert rest k v

/-! ### `OutputDataFrame` (src/outputDataFrame.py, lines 29-171)

State of one `OutputDataFrame` instance: the in-memory cell `_dataFrame`
and the contents of the cache file at `_diskLocation`.
`cacheFile = none` means no file exists (`self.cached` is false);
`cacheFile = some none` means a file exists but deserializing it raises;
`cacheFile = some (some df)` means a file exists and deserializes to `df`. -/
structure ODFState (DF : Type) where
  memory : Option DF
  cacheFile : Option (Option DF)

/-- Everything observable about one evaluation of the `dataFrame` property:
the returned frame, the state afterwards, and how many times `load`,
`preprocess`, the parquet read and the parquet write ran. -/
structure ODFOutcome (DF : Type) where
  result : DF
  state : ODFState DF
  loadCalls : Nat
  preprocessCalls : Nat
  diskReads : Nat
  diskWrites : Nat

/-- Model of `OutputDataFrame._read` / `pd.read_parquet`: deserializing the cache
file either yields the stored frame or raises. -/
def readParquet {DF : Type} : Option DF → Except String DF
  | some df => Except.ok df
  | none => Except.error "deserialization failure"

/-- The `OutputDataFrame.dataFrame` property (src/outputDataFrame.py,
lines 110-149).  `load` is the value `self.load()` would produce and
`preprocess` is `self.preprocess`; both are modeled as total since the
claims about this property concern the caching protocol itself.
The branch structure mirrors the source: memory hit first, then the
`not self.cached` compute-and-write branch, then the read branch whose
`try/except` catches a deserialization failure, clears the cache
(`self.clearCache()`), recomputes and rewrites the file.  Note the
function is total: no deserialization error escapes it. -/
def OutputDataFrame_dataFrame {DF : Type} (load : DF) (preprocess : DF → DF)
    (s : ODFState DF) : ODFOutcome DF :=
  match s.memory with
  | some df => ⟨df, s, 0, 0, 0, 0⟩
  | none =>
    match s.cacheFile with
    | none =>
      let r := preprocess load
      ⟨r, ⟨some r, some (some r)⟩, 1, 1, 0, 1⟩
    | some c =>
      match readParquet c with
      | Except.ok df => ⟨df, ⟨some df, some c⟩, 0, 0, 1, 0⟩
      | Except.error _ =>
        let r := preprocess load
        ⟨r, ⟨some r, some (some r)⟩, 1, 1, 1, 1⟩

/-! ### `RawOutputFile` (src/input.py, lines 51-107) -/

/-- The arguments `RawOutputFile.file` passes to `pd.read_csv`.
`ι` is the type of an `index_col` hint, `δ` of a `dtype` hint. -/
structure CsvCall (ι δ : Type) where
  path : String
  index_col : Option ι
  dtype : Option δ

/-- Result of one `pd.read_csv` invocation: a parsed table, or the
`FileNotFoundError` that the source catches. -/
inductive CsvResult (Table : Type) where
  | ok : Table → CsvResult Table
  | fileNotFound : CsvResult Table

/-- State of one `RawOutputFile`: the resolved `filePath`, the stored
`index_col` and `dtype` constructor arguments, and the memo cell `_file`. -/
structure RawOutputFileState (Table ι δ : Type) where
  filePath : String
  index_col : Option ι
  dtype : Option δ
  file : Option Table

/-- Model of `RawOutputFile.file` (src/input.py, lines 76-92).  `read_csv` is the
parser; the call record mirrors the source invocation
`pd.read_csv(self.filePath, index_col=self.index_col, dtype=None)` —
in particular the literal `dtype=None`, not `self.dtype`.  A
`FileNotFoundError` is caught and `None` returned; a successful parse is
memoized in `_file`. -/
def RawOutputFile_file {Table ι δ : Type}
    (read_csv : CsvCall ι δ → CsvResult Table)
    (s : RawOutputFileState Table ι δ) :
    Option Table × RawOutputFileState Table ι δ :=
  match s.file with
  | some t => (some t, s)
  | none =>
    match read_csv ⟨s.filePath, s.index_col, none⟩ with
    | CsvResult.ok t => (some t, { s with file := some t })
    | CsvResult.fileNotFound => (none, s)

/-! ### `TripModeCount.load` (src/outputDataFrame.py, lines 962-987) -/

/-- The canonical trip-mode mapping literal from `TripModeCount.load`,
in source order. -/
def tripModeMapping : List (String × String) :=
  [("DRIVEALONEPAY", "SOV"),
   ("DRIVEALONEFREE", "SOV"),
   ("SHARED2PAY", "HOV"),
   ("SHARED2FREE", "HOV"),
   ("WALK", "WALK"),
   ("SHARED3PAY", "HOV"),
   ("SHARED3FREE", "HOV"),
   ("DRIVE_LOC", "DRIVE_TRANSIT"),
   ("DRIVE_HVY", "DRIVE_TRANSIT"),
   ("DRIVE_LRF", "DRIVE_TRANSIT"),
   ("DRIVE_COM", "DRIVE_TRANSIT"),
   ("WALK_LOC", "WALK_TRANSIT"),
   ("WALK_HVY", "WALK_TRANSIT"),
   ("WALK_LRF", "WALK_TRANSIT"),
   ("WALK_COM", "WALK_TRANSIT"),
   ("TAXI", "TNC"),
   ("TNC_SINGLE", "TNC"),
   ("TNC_SHARED", "TNC")]

/-- Model of `df.replace({"trip_mode": mapping})` on one cell: a value in the
mapping is replaced, any other value is left as is. -/
def replaceTripMode (mode : String) : String :=
  (List.lookup mode tripModeMapping).getD mode

/-- Model of `Series.value_counts(normalize=False)`: occurrence count per distinct
value.  Modeled as an association list in first-appearance order (pandas
additionally sorts by descending count, which does not change the
value-to-count mapping the claims are about). -/
def valueCounts (modes : List String) : List (String × Nat) :=
  modes.foldl (fun acc m =>
    match List.lookup m acc with
    | some n => dictInsert acc m (n + 1)
    | none => acc ++ [(m, 1)]) []

/-- Model of `TripModeCount.load`: replace `trip_mode` through the canonical
mapping, then count occurrences per mode.  The trips frame is modeled by
its `trip_mode` column. -/
def TripModeCount_load (trip_modes : List String) : List (String × Nat) :=
  valueCounts (trip_modes.map replaceTripMode)

/-! ### By-year aggregators (src/outputDataFrame.py, lines 1231-1561)

`pilatesInputDict` is modeled as the insertion-ordered list of its
`((year, iteration), value)` items.  `PilatesRunInputDirectory.__init__`
(src/input.py, lines 632-648) inserts, for each year, iteration `-1`
first and then `1 .. asimLiteIterations` in increasing order. -/

/-- One step of the first loop of `TripModeCountByYear.load` /
`TripPMTByYear.load` / `TripModeCountByCountyByYear.load` /
`TripPMTByCountyByYear.load` (e.g. lines 1323-1328):

    if yr in self.__lastIterationPerYear:
        if it <= self.__lastIterationPerYear[yr]:
            continue
    else:
        self.__lastIterationPerYear[yr] = it

When the year is already present the dict is left unchanged on both
paths of the inner test — the source has no update statement on the
fall-through path — so only the first-seen iteration of a year is ever
recorded. -/
def lastIterationStepAsim (last : List (Int × Int)) (yr it : Int) :
    List (Int × Int) :=
  match List.lookup yr last with
  | some prev => if it ≤ prev then last else last
  | none => dictInsert last yr it

/-- The `__lastIterationPerYear` dict built by the first loop of the
activity-model by-year aggregators. -/
def lastIterationPerYearAsim {α : Type} (entries : List ((Int × Int) × α)) :
    List (Int × Int) :=
  entries.foldl (fun last e => lastIterationStepAsim last e.1.1 e.1.2) []

/-- Model of `TripModeCountByYear.load` (lines 1316-1335), with
`data.tripModeCount.dataFrame` modeled as the value stored in the input
dict.  The second loop keeps, per year, the entry whose iteration equals
the recorded `__lastIterationPerYear[yr]`; the result of
`pd.concat(self.__yearToDataFrame, ...)` is modeled as the year-keyed
association list itself (empty list for the empty branch).
`TripPMTByYear.load` (lines 1243-1256) is the same code over
`data.tripPMT.dataFrame`. -/
def TripModeCountByYear_load {α : Type} (entries : List ((Int × Int) × α)) :
    List (Int × α) :=
  let last := lastIterationPerYearAsim entries
  entries.foldl (fun acc e =>
    if List.lookup e.1.1 last == some e.1.2
    then dictInsert acc e.1.1 e.2 else acc) []

/-- One step of the first loop of `ModeVMTByYear.load` /
`ModeEnergyByYear.load` / `CongestionInfoByYear.load`
(e.g. lines 1423-1428):

    if yr in self.__lastIterationPerYear:
        if it >= self.__lastIterationPerYear[yr]:
            self.__lastIterationPerYear[yr] = it
    else:
        self.__lastIterationPerYear[yr] = it

This variant does update on a larger iteration, so it records the
maximum iteration per year. -/
def lastIterationStepBeam (last : List (Int × Int)) (yr it : Int) :
    List (Int × Int) :=
  match List.lookup yr last with
  | some prev => if it ≥ prev then dictInsert last yr it else last
  | none => dictInsert last yr it

/-- The `__lastIterationPerYear` dict built by the first loop of the
network-model (BEAM) by-year aggregators. -/
def lastIterationPerYearBeam {α : Type} (entries : List ((Int × Int) × α)) :
    List (Int × Int) :=
  entries.foldl (fun last e => lastIterationStepBeam last e.1.1 e.1.2) []

/-- The iteration indices visited by `x = start; while x > -2: ...; x -= 1`,
in visit order: `start, start - 1, ..., -1` (empty when `start < -1`). -/
def descendingIterations (start : Int) : List Int :=
  (List.range (start + 2).toNat).map (fun k => start - k)

/-- The body of the fallback `while` loop shared by the BEAM by-year
aggregators: try each iteration index in turn; an index succeeds when
`(yr, x)` is a key of `pilatesInputDict` (else `KeyError`) and its
`.dataFrame` loads (else that exception) — a value `none` models a frame
whose load raises.  The first success is returned (the source sets
`x = -100` to leave the loop); exhaustion yields nothing and the loop
only prints a diagnostic. -/
def tryIterationsDesc {DF : Type} (entries : List ((Int × Int) × Option DF))
    (yr : Int) : List Int → Option DF
  | [] => none
  | x :: rest =>
    match List.lookup (yr, x) entries with
    | some (some df) => some df
    | _ => tryIterationsDesc entries yr rest

/-- Model of `ModeEnergyByYear.load` (lines 1477-1508), with
`data.modeEnergy.dataFrame` modeled as the (optional) value stored in the
input dict.  For each year the backward search starts at the recorded last
iteration (`x = it`); a year with no successful iteration is omitted.
`CongestionInfoByYear.load` (lines 1523-1561) starts its search the same
way. -/
def ModeEnergyByYear_load {DF : Type} (entries : List ((Int × Int) × Option DF)) :
    List (Int × DF) :=
  (lastIterationPerYearBeam entries).foldl (fun acc yrIt =>
    match tryIterationsDesc entries yrIt.1 (descendingIterations yrIt.2) with
    | some df => dictInsert acc yrIt.1 df
    | none => acc) []

/-- Model of `ModeVMTByYear.load` (lines 1416-1447): identical to
`ModeEnergyByYear.load` except that the backward search starts at the
literal `x = 2` (line 1430), ignoring the computed last iteration `it`. -/
def ModeVMTByYear_load {DF : Type} (entries : List ((Int × Int) × Option DF)) :
    List (Int × DF) :=
  (lastIterationPerYearBeam entries).foldl (fun acc yrIt =>
    match tryIterationsDesc entries yrIt.1 (descendingIterations 2) with
    | some df => dictInsert acc yrIt.1 df
    | none => acc) []

/-! ### `getLinkStats` (src/transformations.py, lines 6-48)

`LinkStatsFromPathTraversals.preprocess` (src/outputDataFrame.py,
lines 599-600) is exactly `getLinkStats` applied to the loaded path
traversals.  A path-traversal row is modeled by the three columns the
function touches; the comma-separated `links` and `linkTravelTime`
string cells are modeled by the lists their `.str.split(",")` produces,
and float arithmetic by exact rationals. -/
structure PathTraversalRow where
  links : List Int
  linkTravelTime : List ℚ
  departureTime : ℚ

/-- One exploded record: the original row index (the frame's index, which
`explode` repeats), one link, its travel time, and the row's departure
time. -/
structure ExplodedLink where
  idx : Nat
  link : Int
  travelTime : ℚ
  departureTime : ℚ

/-- Model of `pd.concat([...links.str.split, ...linkTravelTime.str.split,
...departureTime], axis=1).explode(["links", "linkTravelTime"])`:
one record per positional pair of link and travel time, tagged with the
originating row index. -/
def explodeLinks (PTs : List PathTraversalRow) : List ExplodedLink :=
  (PTs.enum.map (fun ir =>
    (ir.2.links.zip ir.2.linkTravelTime).map (fun lt =>
      ⟨ir.1, lt.1, lt.2, ir.2.departureTime⟩))).flatten

/-- Model of `.loc[index.duplicated(keep="first")]`: keep exactly the records whose
index value already occurred earlier in the sequence (dropping the first
occurrence of every index). -/
def keepIndexDuplicated (seen : List Nat) : List ExplodedLink → List ExplodedLink
  | [] => []
  | e :: rest =>
    if seen.contains e.idx then e :: keepIndexDuplicated seen rest
    else keepIndexDuplicated (e.idx :: seen) rest

/-- Model of `groupby(level=0).agg({"linkTravelTime": np.cumsum})` followed by the
hour computation: each record is paired with the running sum of travel
times of the records sharing its index so far, and the cumulative-sum
state is threaded through `acc`. -/
def addCumulativeTravelTime (acc : List (Nat × ℚ)) :
    List ExplodedLink → List (ExplodedLink × ℚ)
  | [] => []
  | e :: rest =>
    let c := ((List.lookup e.idx acc).getD 0) + e.travelTime
    (e, c) :: addCumulativeTravelTime (dictInsert acc e.idx c) rest

/-- Model of `groupby(["links", "hour"]).agg({"linkTravelTime": np.sum,
"volume": np.sum})` with `volume = 1.0` per record: an association list
from `(link, hour)` to `(traveltime, volume)` (pandas sorts group keys;
first-appearance order carries the same mapping). -/
def groupLinkStats (records : List ((Int × Int) × ℚ)) :
    List ((Int × Int) × (ℚ × ℚ)) :=
  records.foldl (fun acc r =>
    match List.lookup r.1 acc with
    | some tv => dictInsert acc r.1 (tv.1 + r.2, tv.2 + 1)
    | none => acc ++ [(r.1, (r.2, 1))]) []

/-- Model of `getLinkStats`: truncate to the first 10000 rows (`PTs.head(10000)`),
explode links with their travel times, drop the first record of every
row index, accumulate cumulative travel times per row, compute
`hour = floor((cumulativeTravelTime + departureTime) / 3600)`, and group
travel time and unit volume by `(link, hour)`. -/
def getLinkStats (PTs : List PathTraversalRow) :
    List ((Int × Int) × (ℚ × ℚ)) :=
  let PTs10000 := PTs.take 10000
  let dup := keepIndexDuplicated [] (explodeLinks PTs10000)
  let withCum := addCumulativeTravelTime [] dup
  groupLinkStats (withCum.map (fun ec =>
    ((ec.1.link, Int.floor ((ec.2 + ec.1.departureTime) / 3600)),
      ec.1.travelTime)))

/-! ### `ModeEnergy.load` (src/outputDataFrame.py, lines 549-561) -/

/-- A path-traversal event row as `ModeEnergy.load` consumes it: the
`mode_extended` discriminator and the `totalEnergyInJoules` value. -/
structure EnergyRow where
  mode_extended : String
  totalEnergyInJoules : ℚ

/-- Model of `groupby("mode_extended").agg({"totalEnergyInJoules": "sum"})`:
association list from mode to the sum of its energy values, in
first-appearance order. -/
def groupSumEnergy (rows : List EnergyRow) : List (String × ℚ) :=
  rows.foldl (fun acc r =>
    match List.lookup r.mode_extended acc with
    | some e => dictInsert acc r.mode_extended (e + r.totalEnergyInJoules)
    | none => acc ++ [(r.mode_extended, r.totalEnergyInJoules)]) []

/-- Model of `ModeEnergy.load`: group-sum the energy per extended mode, then
`df.loc[df.index.astype(str).str.startswith("car"), :] *= 10`. -/
def ModeEnergy_load (rows : List EnergyRow) : List (String × ℚ) :=
  (groupSumEnergy rows).map (fun me =>
    if me.1.startsWith "car" then (me.1, me.2 * 10) else me)

/-- Sum of `totalEnergyInJoules` over the rows of one mode — the
reference value the `ModeEnergy.load` theorem compares against. -/
def totalEnergyFor (rows : List EnergyRow) (mode : String) : ℚ :=
  ((rows.filter (fun r => r.mode_extended == mode)).map
    (fun r => r.totalEnergyInJoules)).sum

/-!
## Theorems

Helper lemmas about association-list lookup come first, then one theorem
per claim, each with a witness where the claim theorem carries hypotheses.
-/

/-- Looking a key up after a `dictInsert`: the inserted key maps to the
new value, every other key is unaffected. -/
theorem lookup_dictInsert {κ β : Type} [BEq κ] [LawfulBEq κ]
    (l : List (κ × β)) (k m : κ) (v : β) :
    List.lookup m (dictInsert l k v) =
      if m == k then some v else List.lookup m l := by
  induction l with
  | nil =>
    by_cases hm : m = k <;>
      simp [dictInsert, List.lookup, hm, beq_false_of_ne]
  | cons hd tl ih =>
    obtain ⟨k0, v0⟩ := hd
    by_cases h0 : k0 = k
    · subst h0
      by_cases hm : m = k0 <;>
        simp [dictInsert, List.lookup, hm, beq_false_of_ne]
    · by_cases hm : m = k0
      · subst hm
        simp [dictInsert, List.lookup, h0, beq_false_of_ne, Ne.symm h0,
          beq_false_of_ne (fun he => h0 he.symm)]
      · simp [dictInsert, List.lookup, h0, hm, ih, beq_false_of_ne]

/-- Looking a key up after appending a single binding: an existing binding
wins, otherwise the appended one is found. -/
theorem lookup_append_single {κ β : Type} [BEq κ] [LawfulBEq κ]
    (l : List (κ × β)) (k m : κ) (v : β) :
    List.lookup m (l ++ [(k, v)]) =
      match List.lookup m l with
      | some w => some w
      | none => if m == k then some v else none := by
  induction l with
  | nil => by_cases hm : m = k <;> simp [List.lookup, hm, beq_false_of_ne]
  | cons hd tl ih =>
    obtain ⟨k0, v0⟩ := hd
    by_cases hm : m = k0
    · subst hm; simp [List.lookup]
    · simp [List.lookup, beq_false_of_ne hm, ih]

/-- Unfolding `totalEnergyFor` over one leading row. -/
theorem totalEnergyFor_cons (r : EnergyRow) (rows : List EnergyRow)
    (mode : String) :
    totalEnergyFor (r :: rows) mode =
      (if r.mode_extended == mode then r.totalEnergyInJoules else 0) +
        totalEnergyFor rows mode := by
  by_cases h : r.mode_extended = mode <;>
    simp [totalEnergyFor, List.filter, h, beq_false_of_ne]

/-- The fold inside `groupSumEnergy` accumulates, for every mode, exactly
the sum of that mode's energy values on top of the accumulator. -/
theorem groupSumEnergy_fold (rows : List EnergyRow)
    (acc : List (String × ℚ)) (mode : String) :
    (List.lookup mode (rows.foldl (fun acc r =>
      match List.lookup r.mode_extended acc with
      | some e => dictInsert acc r.mode_extended (e + r.totalEnergyInJoules)
      | none => acc ++ [(r.mode_extended, r.totalEnergyInJoules)]) acc)).getD 0 =
      (List.lookup mode acc).getD 0 + totalEnergyFor rows mode := by
  induction rows generalizing acc with
  | nil => simp [totalEnergyFor]
  | cons r rows ih =>
    rw [List.foldl_cons, ih, totalEnergyFor_cons]
    by_cases hm : r.mode_extended = mode
    · subst hm
      cases hl : List.lookup r.mode_extended acc with
      | some e => simp [hl, lookup_dictInsert]; try ring
      | none => simp [hl, lookup_append_single]; try ring
    · cases hl : List.lookup r.mode_extended acc with
      | some e =>
        simp [hl, lookup_dictInsert, beq_false_of_ne (fun he => hm he.symm),
          beq_false_of_ne hm]
      | none =>
        simp [hl, lookup_append_single, beq_false_of_ne (fun he => hm he.symm),
          beq_false_of_ne hm]
        cases List.lookup mode acc <;> simp

/-- The final `*= 10` row update of `ModeEnergy.load`, seen through
lookup: values of keys starting with "car" are multiplied by ten, other
values pass through. -/
theorem lookup_carMap (l : List (String × ℚ)) (mode : String) :
    List.lookup mode (l.map (fun me =>
      if me.1.startsWith "car" then (me.1, me.2 * 10) else me)) =
      (List.lookup mode l).map (fun v =>
        if mode.startsWith "car" then v * 10 else v) := by
  induction l with
  | nil => simp [List.lookup]
  | cons hd tl ih =>
    obtain ⟨k0, v0⟩ := hd
    by_cases hm : mode = k0
    · subst hm
      cases hc : String.startsWith mode "car" <;>
        · simp only [List.map_cons, hc]
          simp [List.lookup]
    · cases hc : String.startsWith k0 "car" <;>
        · simp only [List.map_cons, hc]
          simp [List.lookup, beq_false_of_ne hm, ih]

/-- Claim C10: for every input path-traversal table, `ModeEnergy.load`
maps each mode whose name starts with "car" to ten times the sum of that
mode's `totalEnergyInJoules` values, and every other mode to the plain
sum (both sides read 0 for a mode not present in the input). -/
theorem modeEnergy_car_times_ten (rows : List EnergyRow) (mode : String) :
    (List.lookup mode (ModeEnergy_load rows)).getD 0 =
      (if String.startsWith mode "car" then (10 : ℚ) else 1) *
        totalEnergyFor rows mode := by
  have hg := groupSumEnergy_fold rows [] mode
  simp [List.lookup] at hg
  rw [ModeEnergy_load, lookup_carMap]
  unfold groupSumEnergy at *
  by_cases hc : String.startsWith mode "car"
  · simp only [hc, if_true]
    cases hl : List.lookup mode (rows.foldl (fun acc r =>
      match List.lookup r.mode_extended acc with
      | some e => dictInsert acc r.mode_extended (e + r.totalEnergyInJoules)
      | none => acc ++ [(r.mode_extended, r.totalEnergyInJoules)]) []) with
    | some w => rw [hl] at hg; simp [hl, ← hg]; ring
    | none => rw [hl] at hg; simp [hl, ← hg]
  · simp only [hc, if_false]
    cases hl : List.lookup mode (rows.foldl (fun acc r =>
      match List.lookup r.mode_extended acc with
      | some e => dictInsert acc r.mode_extended (e + r.totalEnergyInJoules)
      | none => acc ++ [(r.mode_extended, r.totalEnergyInJoules)]) []) with
    | some w => rw [hl] at hg; simp [hl, ← hg]
    | none => rw [hl] at hg; simp [hl, ← hg]

/-- Claim C1: the first read of an `OutputDataFrame`'s result follows the
three-step protocol.  If an in-memory result is already set it is
returned unchanged with no load, no preprocess and no disk I/O; otherwise
if the cache file exists (and deserializes) its contents are stored in
memory and returned with exactly one disk read and no recomputation;
otherwise `load()` runs, `preprocess` is applied to the loaded data, the
outcome is stored in memory, written to the cache file, and returned. -/
theorem dataFrame_first_read_protocol {DF : Type} (load : DF)
    (preprocess : DF → DF) (s : ODFState DF) :
    (∀ df, s.memory = some df →
      OutputDataFrame_dataFrame load preprocess s = ⟨df, s, 0, 0, 0, 0⟩) ∧
    (∀ df, s.memory = none → s.cacheFile = some (some df) →
      OutputDataFrame_dataFrame load preprocess s =
        ⟨df, ⟨some df, some (some df)⟩, 0, 0, 1, 0⟩) ∧
    (s.memory = none → s.cacheFile = none →
      OutputDataFrame_dataFrame load preprocess s =
        ⟨preprocess load,
          ⟨some (preprocess load), some (some (preprocess load))⟩,
          1, 1, 0, 1⟩) := by
  obtain ⟨mem, cf⟩ := s
  refine ⟨?_, ?_, ?_⟩
  · intro df h
    simp only at h
    subst h
    rfl
  · intro df h1 h2
    simp only at h1 h2
    subst h1
    subst h2
    rfl
  · intro h1 h2
    simp only at h1 h2
    subst h1
    subst h2
    rfl

/-- Witness for C1: the three branches evaluated on concrete states. -/
theorem dataFrame_first_read_protocol_witness :
    OutputDataFrame_dataFrame 5 (fun x => x + 1)
        (⟨some 9, none⟩ : ODFState Nat) = ⟨9, ⟨some 9, none⟩, 0, 0, 0, 0⟩ ∧
    OutputDataFrame_dataFrame 5 (fun x => x + 1)
        (⟨none, some (some 7)⟩ : ODFState Nat) =
      ⟨7, ⟨some 7, some (some 7)⟩, 0, 0, 1, 0⟩ ∧
    OutputDataFrame_dataFrame 5 (fun x => x + 1)
        (⟨none, none⟩ : ODFState Nat) =
      ⟨6, ⟨some 6, some (some 6)⟩, 1, 1, 0, 1⟩ :=
  ⟨(dataFrame_first_read_protocol 5 (fun x => x + 1) ⟨some 9, none⟩).1 9 rfl,
   (dataFrame_first_read_protocol 5 (fun x => x + 1)
      ⟨none, some (some 7)⟩).2.1 7 rfl rfl,
   (dataFrame_first_read_protocol 5 (fun x => x + 1) ⟨none, none⟩).2.2 rfl rfl⟩

/-- Claim C2: when the cache file exists but fails to deserialize, the
read catches the failure, clears the cache, recomputes the result via
`load` and `preprocess`, rewrites the cache file, and returns the
recomputed result.  `OutputDataFrame_dataFrame` is a total function into
`ODFOutcome` — it has no error channel even though `readParquet` does —
so the deserialization exception is never propagated to the caller. -/
theorem dataFrame_corrupt_cache_recovery {DF : Type} (load : DF)
    (preprocess : DF → DF) (s : ODFState DF)
    (hm : s.memory = none) (hc : s.cacheFile = some none) :
    OutputDataFrame_dataFrame load preprocess s =
      ⟨preprocess load,
        ⟨some (preprocess load), some (some (preprocess load))⟩,
        1, 1, 1, 1⟩ := by
  obtain ⟨mem, cf⟩ := s
  simp only at hm hc
  subst hm
  subst hc
  rfl

/-- Witness for C2: the corrupt-cache state evaluated concretely. -/
theorem dataFrame_corrupt_cache_recovery_witness :
    (⟨none, some none⟩ : ODFState Nat).memory = none ∧
    (⟨none, some none⟩ : ODFState Nat).cacheFile = some none ∧
    OutputDataFrame_dataFrame 5 (fun x => x + 1)
        (⟨none, some none⟩ : ODFState Nat) =
      ⟨6, ⟨some 6, some (some 6)⟩, 1, 1, 1, 1⟩ :=
  ⟨rfl, rfl,
   dataFrame_corrupt_cache_recovery 5 (fun x => x + 1) ⟨none, some none⟩ rfl rfl⟩

/-- Claim C3: reading the result twice, without an intervening
`clearCache`, returns the same value both times, leaves the state after
the first read unchanged, and invokes `load` at most once and
`preprocess` at most once in total across both reads. -/
theorem dataFrame_idempotent_at_most_one_load {DF : Type} (load : DF)
    (preprocess : DF → DF) (s : ODFState DF) :
    (OutputDataFrame_dataFrame load preprocess
        (OutputDataFrame_dataFrame load preprocess s).state).result =
      (OutputDataFrame_dataFrame load preprocess s).result ∧
    (OutputDataFrame_dataFrame load preprocess
        (OutputDataFrame_dataFrame load preprocess s).state).state =
      (OutputDataFrame_dataFrame load preprocess s).state ∧
    (OutputDataFrame_dataFrame load preprocess s).loadCalls +
      (OutputDataFrame_dataFrame load preprocess
        (OutputDataFrame_dataFrame load preprocess s).state).loadCalls ≤ 1 ∧
    (OutputDataFrame_dataFrame load preprocess s).preprocessCalls +
      (OutputDataFrame_dataFrame load preprocess
        (OutputDataFrame_dataFrame load preprocess s).state).preprocessCalls
      ≤ 1 := by
  obtain ⟨mem, cf⟩ := s
  cases mem with
  | some df => simp [OutputDataFrame_dataFrame]
  | none =>
    cases cf with
    | none => simp [OutputDataFrame_dataFrame]
    | some c =>
      cases c with
      | some df => simp [OutputDataFrame_dataFrame, readParquet]
      | none => simp [OutputDataFrame_dataFrame, readParquet]

/-- Claim C6: when nothing is memoized and the resolved path does not
exist (the parser reports the `FileNotFoundError` that
`pd.read_csv` would raise), `RawOutputFile.file` catches it and returns
the undefined marker `None` with the state unchanged; the function is
total, so no file-not-found exception escapes to the caller. -/
theorem rawOutputFile_missing_file_returns_none {Table ι δ : Type}
    (read_csv : CsvCall ι δ → CsvResult Table)
    (s : RawOutputFileState Table ι δ)
    (hfile : s.file = none)
    (hmissing : read_csv ⟨s.filePath, s.index_col, none⟩ =
      CsvResult.fileNotFound) :
    RawOutputFile_file read_csv s = (none, s) := by
  unfold RawOutputFile_file
  rw [hfile, hmissing]

/-- Witness for C6: a concrete missing file evaluated. -/
theorem rawOutputFile_missing_file_returns_none_witness :
    (⟨"missing.csv", none, none, none⟩ :
        RawOutputFileState Nat String String).file = none ∧
    (fun _ : CsvCall String String => (CsvResult.fileNotFound : CsvResult Nat))
        ⟨"missing.csv", none, none⟩ = CsvResult.fileNotFound ∧
    RawOutputFile_file
        (fun _ : CsvCall String String =>
          (CsvResult.fileNotFound : CsvResult Nat))
        ⟨"missing.csv", none, none, none⟩ =
      (none, ⟨"missing.csv", none, none, none⟩) :=
  ⟨rfl, rfl,
   rawOutputFile_missing_file_returns_none _ ⟨"missing.csv", none, none, none⟩
     rfl rfl⟩

/-- Claim C7 (divergence): the claim says the first `file()` call applies
both the stored `index_col` hint and the stored `dtype` hint to the
parse.  Instantiating the parser with one that returns its own argument
record shows the source call
`pd.read_csv(self.filePath, index_col=self.index_col, dtype=None)`
forwards the `index_col` hint but passes the literal `dtype=None`,
ignoring the `some "str"` dtype hint stored on the instance. -/
theorem rawOutputFile_dtype_hint_ignored :
    RawOutputFile_file (fun call => CsvResult.ok call)
        (⟨"households.csv", some "household_id", some "str", none⟩ :
          RawOutputFileState (CsvCall String String) String String) =
      (some ⟨"households.csv", some "household_id", none⟩,
        ⟨"households.csv", some "household_id", some "str",
          some ⟨"households.csv", some "household_id", none⟩⟩) := rfl

/-- Claim C8: a `TripModeCount` whose upstream trips have `trip_mode`
values DRIVEALONEFREE, WALK, SHARED2FREE, DRIVEALONEPAY loads, after the
canonical mode mapping, the count table with SOV at 2, WALK at 1 and
HOV at 1. -/
theorem tripModeCount_concrete_scenario :
    TripModeCount_load ["DRIVEALONEFREE", "WALK", "SHARED2FREE",
        "DRIVEALONEPAY"] =
      [("SOV", 2), ("WALK", 1), ("HOV", 1)] := by decide

/-- Claim C9: `getLinkStats` computes link volumes and travel times from
only the first 10000 rows of its input — its value on any input equals
its value on the input truncated to the first 10000 rows, so rows beyond
the first 10000 never contribute to the resulting linkstats table. -/
theorem getLinkStats_only_first_10000_rows (PTs : List PathTraversalRow) :
    getLinkStats PTs = getLinkStats (PTs.take 10000) := by
  unfold getLinkStats
  rw [List.take_take]
  norm_num

/-- Claim C4 (divergence): the claim says the activity-model by-year
aggregators select, per year, the maximum iteration available.  On the
input whose insertion order is `(2020, -1)` before `(2020, 1)` — the
order `PilatesRunInputDirectory.__init__` produces — the first loop of
`TripModeCountByYear.load` records `-1`, the first-seen iteration
(its update branch is missing), and the result carries iteration `-1`'s
table (here `10`) instead of maximum iteration `1`'s table (here `20`). -/
theorem tripModeCountByYear_selects_first_seen_iteration :
    TripModeCountByYear_load [((2020, -1), 10), ((2020, 1), 20)] =
      [(2020, 10)] ∧
    lastIterationPerYearAsim [((2020, -1), 10), ((2020, 1), 20)] =
      [(2020, -1)] := ⟨rfl, rfl⟩

/-- Claim C5 (divergence): the claim says the network-model by-year
aggregators search backward starting from each year's maximum iteration.
`ModeEnergyByYear.load` does: with iterations 3 and 4 present it selects
iteration 4's table, and with the maximum iteration 2's table failing to
load it falls back to iteration 1's.  But `ModeVMTByYear.load` hardcodes
its search start at iteration 2, so with only iterations 3 and 4
available it tries 2, 1, 0, -1, finds nothing, and omits the year
entirely instead of selecting iteration 4's table. -/
theorem modeVMTByYear_starts_fallback_at_two :
    ModeVMTByYear_load [((2020, 3), some 30), ((2020, 4), some 40)] =
      ([] : List (Int × Nat)) ∧
    ModeEnergyByYear_load [((2020, 3), some 30), ((2020, 4), some 40)] =
      [(2020, 40)] ∧
    ModeEnergyByYear_load [((2020, 1), some 10), ((2020, 2), none)] =
      ([(2020, 10)] : List (Int × Nat)) := ⟨rfl, rfl, rfl⟩
